import Mathlib

/-!
Verification of `src/implicit_self.py`.

The file demonstrates two Python metaprogramming mechanisms:

* Mechanism A (`ImplicitSelfDecorator` / `ImplicitSelfMetaclass` /
  `ImplicitSelf`): on each call of a decorated method, the names
  `self` and `cls` are temporarily injected into the defining module's
  global dictionary, the original function is invoked, and on the
  normal return path the two entries are restored to their pre-call
  state (re-bound to the old value, or deleted when they were absent).

* Mechanism B (`resolve_dynamic_var` / `self` / `cls` /
  `SelfClsDescriptor` / `SelfClsMetaclass` / `SelfCls`): a resolver
  walks the active call stack from the innermost frame outward looking
  for a local variable of a given name; the descriptor's inner wrapper
  binds local variables `self` and `cls` so the resolver can find them.

The embedding models Python values as an inductive type `PyVal`, the
module-global dictionary as an association list with dict-like
lookup / set / delete, the call stack as a list of frames (each a
local-variable association list, innermost first), and a possibly
raising Python callable as a function into `Except` (`Except.error`
models an uncaught exception propagating out of the body).
-/

/-- Model of a Python runtime value.  Instances carry the identity of
their class and their own object identity; `vnone` is the `None`
object; `vcls` is a class object identified by a class id. -/
inductive PyVal where
  | vnone
  | vobj (c : Nat) (i : Nat)
  | vcls (c : Nat)
  | vint (z : Int)
  | vstr (s : String)
deriving DecidableEq, Repr

/-- Model of Python's `type(x)`: the class of an instance `vobj c i` is
`vcls c`; the built-in classes get fixed ids (`0` NoneType, `1` type,
`2` int, `3` str). -/
def pytype : PyVal → PyVal
  | PyVal.vobj c _ => PyVal.vcls c
  | PyVal.vnone => PyVal.vcls 0
  | PyVal.vcls _ => PyVal.vcls 1
  | PyVal.vint _ => PyVal.vcls 2
  | PyVal.vstr _ => PyVal.vcls 3

/-- Positional and keyword arguments of a Python call
(`*args, **kw` in the source). -/
abbrev Args := List PyVal × List (String × PyVal)

/-- The global dictionary of the defining module
(`func.__globals__` in the source), as an association list. -/
abbrev Globals := List (String × PyVal)

/-- Dictionary lookup (`g[key]` / `key in g`): first binding of the
key, `none` when the key is absent. -/
def glookup : Globals → String → Option PyVal
  | [], _ => none
  | (k, v) :: rest, key => if k = key then some v else glookup rest key

/-- Dictionary deletion (`del g[key]`): removes every binding of the
key. -/
def gdel : Globals → String → Globals
  | [], _ => []
  | (k, v) :: rest, key =>
      if k = key then gdel rest key else (k, v) :: gdel rest key

/-- Dictionary update (`g[key] = v`): binds the key to `v`,
forgetting any previous binding. -/
def gset (g : Globals) (key : String) (v : PyVal) : Globals :=
  (key, v) :: gdel g key

/-- Model of a Python callable under Mechanism A: it sees the module
globals (the method body reads the injected names from them) and the
call arguments, and either returns a value (`Except.ok`) or raises an
uncaught exception (`Except.error`). -/
abbrev FuncA := Globals → Args → Except PyVal PyVal

/-- The state of the module globals while the wrapped body runs
(source lines 28 to 29): `self` is set to `selfvar` first, then `cls`
to `clsvar`. -/
def injectedGlobals (g : Globals) (selfvar clsvar : PyVal) : Globals :=
  gset (gset g "self" selfvar) "cls" clsvar

/-- Embeds the inner function `decorated` of
`ImplicitSelfDecorator.__get__` (source lines 20 to 41): record the
pre-call state of the `self` and `cls` entries of `func.__globals__`
(`self_defined` / `oldself` / `cls_defined` / `oldcls` collapse to one
`Option` each), inject the two names, call `func`, and on the normal
return path restore each entry (re-bind the old value when one
existed, delete the entry otherwise).  An exception of `func`
propagates and skips the restoration, so the pair returned carries the
still-injected globals in that case. -/
def decoratedA (func : FuncA) (selfvar clsvar : PyVal) (g : Globals)
    (args : Args) : Except PyVal PyVal × Globals :=
  let oldself := glookup g "self"
  let oldcls := glookup g "cls"
  let g1 := injectedGlobals g selfvar clsvar
  match func g1 args with
  | Except.error e => (Except.error e, g1)
  | Except.ok result =>
      let g2 := match oldself with
        | some v => gset g1 "self" v
        | none => gdel g1 "self"
      let g3 := match oldcls with
        | some v => gset g2 "cls" v
        | none => gdel g2 "cls"
      (Except.ok result, g3)

/-- Embeds `ImplicitSelfDecorator.__get__` (source lines 15 to 43):
`selfvar` is the instance the method was accessed on (`vnone` for
access on the class, mirroring the descriptor protocol), `clsvar` is
`type(obj)` for an instance and the accessing class otherwise; the
returned closure is `decorated`. -/
def ImplicitSelfDecorator_get (func : FuncA) (obj : PyVal)
    (cls : PyVal) : Globals → Args → Except PyVal PyVal × Globals :=
  let selfvar := obj
  let clsvar := if obj ≠ PyVal.vnone then pytype obj else cls
  decoratedA func selfvar clsvar

/-- A stack frame's local variables (`frame.f_locals`), as an
association list.  Only the locals relevant to name resolution are
modelled per frame. -/
abbrev Frame := List (String × PyVal)

/-- The active call stack, innermost frame first (the direction the
`frame.f_back` chain of the source walks). -/
abbrev Stack := List Frame

/-- Embeds `resolve_dynamic_var` (source lines 90 to 95): walk the
stack from the innermost frame outward and return the binding of
`name` in the first frame whose locals contain it; when the walk
exhausts the stack the Python function falls off its loop and returns
`None`, modelled as `Option.none`. -/
def resolve_dynamic_var (name : String) : Stack → Option PyVal
  | [] => none
  | f :: rest =>
      match glookup f name with
      | some v => some v
      | none => resolve_dynamic_var name rest

/-- Embeds the module-level function `self` (source lines 97 to 98),
as a function of the active call stack. -/
def self (stack : Stack) : Option PyVal :=
  resolve_dynamic_var "self" stack

/-- Embeds the module-level function `cls` (source lines 100 to 101),
as a function of the active call stack. -/
def cls (stack : Stack) : Option PyVal :=
  resolve_dynamic_var "cls" stack

/-- Model of a Python callable under Mechanism B: it runs with the
call stack below it in scope (its body may call `self` / `cls`, which
inspect that stack) and either returns or raises. -/
abbrev FuncB := Stack → Args → Except PyVal PyVal

/-- The locals of the inner wrapper `decorated` of
`SelfClsDescriptor.__get__` that matter for resolution: the local
variables named `self` and `cls` assigned on source lines 114 to 115.
(The real frame also holds `args`, `kw` and the closure cells `func`,
`obj`, `cls_`, none of which is named `self` or `cls`.) -/
def wrapperFrame (selfLocal clsLocal : PyVal) : Frame :=
  [("self", selfLocal), ("cls", clsLocal)]

/-- Embeds `SelfClsDescriptor.__get__` (source lines 109 to 119): the
returned wrapper binds locals `self = obj` and
`cls = type(obj) if obj is not None else cls_`, then calls `func` with
the wrapper's own frame pushed onto the stack. -/
def SelfClsDescriptor_get (func : FuncB) (obj : PyVal)
    (cls_ : PyVal) : FuncB :=
  fun stack args =>
    let selfLocal := obj
    let clsLocal := if obj ≠ PyVal.vnone then pytype obj else cls_
    func (wrapperFrame selfLocal clsLocal :: stack) args

/-- Model of a value sitting in a class namespace dictionary: a plain
non-callable value, a callable function (identified by an id), or an
instance of one of the two wrapping descriptor classes (descriptor
instances define no `__call__`, so they are themselves not
callable). -/
inductive Attr where
  | plain (v : PyVal)
  | method (fid : Nat)
  | wrappedA (inner : Attr)
  | wrappedB (inner : Attr)
deriving DecidableEq, Repr

/-- Model of Python's `callable(x)` on namespace values. -/
def isCallable : Attr → Bool
  | Attr.method _ => true
  | _ => false

/-- A class namespace dictionary (the `d` argument of the metaclass
`__new__` methods). -/
abbrev NsDict := List (String × Attr)

/-- Namespace dictionary lookup, first binding of the key. -/
def nslookup : NsDict → String → Option Attr
  | [], _ => none
  | (k, v) :: rest, key => if k = key then some v else nslookup rest key

/-- Model of the class object built by `type.__new__`: its name, the
namespace dictionaries of its bases in method-resolution order, and
its own namespace dictionary. -/
structure PyClassObj where
  cname : String
  baseDicts : List NsDict
  ns : NsDict
deriving DecidableEq, Repr

/-- Attribute lookup through the base classes, in order. -/
def basesLookup : List NsDict → String → Option Attr
  | [], _ => none
  | d :: rest, key =>
      match nslookup d key with
      | some v => some v
      | none => basesLookup rest key

/-- Model of attribute lookup on a class object: the class's own
namespace first, then its bases. -/
def class_getattr (c : PyClassObj) (key : String) : Option Attr :=
  match nslookup c.ns key with
  | some v => some v
  | none => basesLookup c.baseDicts key

/-- Embeds `ImplicitSelfMetaclass.__new__` (source lines 48 to 52):
every callable value of the new class's own namespace dictionary is
replaced by an `ImplicitSelfDecorator` wrapping it, every other value
passes through, and the class is built from the rewritten dictionary;
the bases are not touched. -/
def ImplicitSelfMetaclass_new (name : String) (bases : List NsDict)
    (d : NsDict) : PyClassObj :=
  ⟨name, bases,
    d.map (fun kv =>
      if isCallable kv.2 then (kv.1, Attr.wrappedA kv.2) else kv)⟩

/-- Embeds `SelfClsMetaclass.__new__` (source lines 123 to 127), the
same rewriting with `SelfClsDescriptor` as the wrapper. -/
def SelfClsMetaclass_new (name : String) (bases : List NsDict)
    (d : NsDict) : PyClassObj :=
  ⟨name, bases,
    d.map (fun kv =>
      if isCallable kv.2 then (kv.1, Attr.wrappedB kv.2) else kv)⟩

/-- A decorated-wrapper frame of Mechanism B, as a predicate on
frames: the frame the inner wrapper of `SelfClsDescriptor.__get__`
contributes to the stack for some resolved instance and class. -/
def IsWrapperFrame (f : Frame) : Prop :=
  ∃ s c, f = wrapperFrame s c

/-- A sample callable that returns `None` and never raises, used to
instantiate the generic theorems at a concrete input. -/
def constFuncA : FuncA := fun _ _ => Except.ok PyVal.vnone

/-- A sample callable whose body raises on every call. -/
def raiseFuncA : FuncA := fun _ _ => Except.error (PyVal.vstr "boom")

/-- A sample Mechanism B callable that returns `None` and never
raises. -/
def constFuncB : FuncB := fun _ _ => Except.ok PyVal.vnone

theorem glookup_gset_eq (g : Globals) (k : String) (v : PyVal) :
    glookup (gset g k v) k = some v := by
  simp [gset, glookup]

theorem glookup_gdel_eq (g : Globals) (k : String) :
    glookup (gdel g k) k = none := by
  induction g with
  | nil => simp [gdel, glookup]
  | cons p rest ih =>
      obtain ⟨k0, v0⟩ := p
      by_cases h : k0 = k
      · simp [gdel, h, ih]
      · simp [gdel, glookup, h, ih]

theorem glookup_gdel_ne (g : Globals) (k k' : String) (h : k' ≠ k) :
    glookup (gdel g k) k' = glookup g k' := by
  induction g with
  | nil => simp [gdel]
  | cons p rest ih =>
      obtain ⟨k0, v0⟩ := p
      by_cases h0 : k0 = k
      · subst h0
        have hne : k0 ≠ k' := fun hc => h hc.symm
        simp [gdel, glookup, hne, ih]
      · by_cases h1 : k0 = k'
        · simp [gdel, glookup, h0, h1, h, ih]
        · simp [gdel, glookup, h0, h1, ih]

theorem glookup_gset_ne (g : Globals) (k k' : String) (v : PyVal)
    (h : k' ≠ k) : glookup (gset g k v) k' = glookup g k' := by
  simp only [gset, glookup]
  rw [if_neg (fun hc => h hc.symm)]
  exact glookup_gdel_ne g k k' h

theorem glookup_injected_self (g : Globals) (s c : PyVal) :
    glookup (injectedGlobals g s c) "self" = some s := by
  unfold injectedGlobals
  rw [glookup_gset_ne _ _ _ _ (by decide)]
  exact glookup_gset_eq g "self" s

theorem glookup_injected_cls (g : Globals) (s c : PyVal) :
    glookup (injectedGlobals g s c) "cls" = some c :=
  glookup_gset_eq (gset g "self" s) "cls" c

theorem decoratedA_fst (func : FuncA) (s c : PyVal) (g : Globals)
    (args : Args) :
    (decoratedA func s c g args).1 = func (injectedGlobals g s c) args := by
  simp only [decoratedA]
  cases hf : func (injectedGlobals g s c) args <;> simp [hf]

theorem resolve_eq_none (name : String) (stack : Stack)
    (h : ∀ f, f ∈ stack → glookup f name = none) :
    resolve_dynamic_var name stack = none := by
  induction stack with
  | nil => rfl
  | cons f rest ih =>
      have hf : glookup f name = none := h f (List.mem_cons_self f rest)
      simp only [resolve_dynamic_var, hf]
      exact ih (fun g hg => h g (List.mem_cons_of_mem f hg))

theorem resolve_append (name : String) (pre rest : Stack)
    (h : ∀ f, f ∈ pre → glookup f name = none) :
    resolve_dynamic_var name (pre ++ rest)
      = resolve_dynamic_var name rest := by
  induction pre with
  | nil => rfl
  | cons f pre ih =>
      have hf : glookup f name = none := h f (List.mem_cons_self f pre)
      simp only [List.cons_append, resolve_dynamic_var, hf]
      exact ih (fun g hg => h g (List.mem_cons_of_mem f hg))

theorem nslookup_wrapMap (f : Attr → Attr) (d : NsDict) (k : String) :
    nslookup
      (d.map (fun kv =>
        if isCallable kv.2 then (kv.1, f kv.2) else kv)) k
    = (nslookup d k).map
        (fun v => if isCallable v then f v else v) := by
  induction d with
  | nil => simp [nslookup]
  | cons p rest ih =>
      obtain ⟨k0, v0⟩ := p
      simp only [List.map]
      by_cases hc : isCallable v0
      · rw [if_pos hc]
        by_cases h0 : k0 = k
        · simp [nslookup, h0, hc]
        · simp [nslookup, h0, ih]
      · rw [if_neg hc]
        by_cases h0 : k0 = k
        · simp [nslookup, h0, hc]
        · simp [nslookup, h0, ih]

/-- Claim C1: while a Mechanism A decorated method executes, the
defining module's globals bind `self` to the instance itself (same
identity) and `cls` to its type; when the method is accessed on the
class, `self` is bound to `None` and `cls` to the accessing class. -/
theorem C1_implicit_self_cls_bindings (func : FuncA) (a acc : PyVal)
    (g : Globals) (args : Args) (h : a ≠ PyVal.vnone) :
    ((ImplicitSelfDecorator_get func a acc g args).1
        = func (injectedGlobals g a (pytype a)) args
      ∧ glookup (injectedGlobals g a (pytype a)) "self" = some a
      ∧ glookup (injectedGlobals g a (pytype a)) "cls" = some (pytype a))
    ∧ ((ImplicitSelfDecorator_get func PyVal.vnone acc g args).1
        = func (injectedGlobals g PyVal.vnone acc) args
      ∧ glookup (injectedGlobals g PyVal.vnone acc) "self"
          = some PyVal.vnone
      ∧ glookup (injectedGlobals g PyVal.vnone acc) "cls" = some acc) := by
  constructor
  · refine ⟨?_, glookup_injected_self g a (pytype a),
      glookup_injected_cls g a (pytype a)⟩
    show (decoratedA func a
      (if a ≠ PyVal.vnone then pytype a else acc) g args).1 = _
    rw [if_pos h]
    exact decoratedA_fst func a (pytype a) g args
  · refine ⟨?_, glookup_injected_self g PyVal.vnone acc,
      glookup_injected_cls g PyVal.vnone acc⟩
    show (decoratedA func PyVal.vnone
      (if PyVal.vnone ≠ PyVal.vnone then pytype PyVal.vnone else acc)
      g args).1 = _
    rw [if_neg (fun hc => hc rfl)]
    exact decoratedA_fst func PyVal.vnone acc g args

/-- Witness for C1 at the instance `vobj 5 1`, accessing class
`vcls 9`, empty globals and no arguments. -/
theorem C1_implicit_self_cls_bindings_witness :
    PyVal.vobj 5 1 ≠ PyVal.vnone
    ∧ (((ImplicitSelfDecorator_get constFuncA (PyVal.vobj 5 1)
          (PyVal.vcls 9) [] ([], [])).1
        = constFuncA
            (injectedGlobals [] (PyVal.vobj 5 1)
              (pytype (PyVal.vobj 5 1))) ([], [])
      ∧ glookup
          (injectedGlobals [] (PyVal.vobj 5 1)
            (pytype (PyVal.vobj 5 1))) "self" = some (PyVal.vobj 5 1)
      ∧ glookup
          (injectedGlobals [] (PyVal.vobj 5 1)
            (pytype (PyVal.vobj 5 1))) "cls"
          = some (pytype (PyVal.vobj 5 1)))
    ∧ ((ImplicitSelfDecorator_get constFuncA PyVal.vnone (PyVal.vcls 9)
          [] ([], [])).1
        = constFuncA (injectedGlobals [] PyVal.vnone (PyVal.vcls 9))
            ([], [])
      ∧ glookup (injectedGlobals [] PyVal.vnone (PyVal.vcls 9)) "self"
          = some PyVal.vnone
      ∧ glookup (injectedGlobals [] PyVal.vnone (PyVal.vcls 9)) "cls"
          = some (PyVal.vcls 9))) :=
  ⟨by decide,
    C1_implicit_self_cls_bindings constFuncA (PyVal.vobj 5 1)
      (PyVal.vcls 9) [] ([], []) (by decide)⟩

/-- Claim C2: when a Mechanism A decorated call returns normally, the
`self` and `cls` entries of the defining module's globals are exactly
restored: re-bound to their pre-call value when they existed, absent
when they did not, for every prior state. -/
theorem C2_globals_restored (func : FuncA) (selfvar clsvar : PyVal)
    (g : Globals) (args : Args) (r : PyVal)
    (h : func (injectedGlobals g selfvar clsvar) args = Except.ok r) :
    glookup (decoratedA func selfvar clsvar g args).2 "self"
        = glookup g "self"
    ∧ glookup (decoratedA func selfvar clsvar g args).2 "cls"
        = glookup g "cls" := by
  have hsc : ("self" : String) ≠ "cls" := by decide
  simp only [decoratedA, h]
  cases hs : glookup g "self" with
  | none =>
      cases hcl : glookup g "cls" with
      | none =>
          refine ⟨?_, ?_⟩
          · rw [glookup_gdel_ne _ _ _ hsc]
            exact glookup_gdel_eq _ _
          · exact glookup_gdel_eq _ _
      | some w =>
          refine ⟨?_, ?_⟩
          · rw [glookup_gset_ne _ _ _ _ hsc]
            exact glookup_gdel_eq _ _
          · exact glookup_gset_eq _ _ _
  | some v =>
      cases hcl : glookup g "cls" with
      | none =>
          refine ⟨?_, ?_⟩
          · rw [glookup_gdel_ne _ _ _ hsc]
            exact glookup_gset_eq _ _ _
          · exact glookup_gdel_eq _ _
      | some w =>
          refine ⟨?_, ?_⟩
          · rw [glookup_gset_ne _ _ _ _ hsc]
            exact glookup_gset_eq _ _ _
          · exact glookup_gset_eq _ _ _

/-- Witness for C2 with `self` bound and `cls` absent before the
call. -/
theorem C2_globals_restored_witness :
    constFuncA
        (injectedGlobals [("self", PyVal.vint 3)] (PyVal.vobj 5 1)
          (PyVal.vcls 5)) ([], []) = Except.ok PyVal.vnone
    ∧ (glookup
          (decoratedA constFuncA (PyVal.vobj 5 1) (PyVal.vcls 5)
            [("self", PyVal.vint 3)] ([], [])).2 "self"
        = glookup [("self", PyVal.vint 3)] "self"
      ∧ glookup
          (decoratedA constFuncA (PyVal.vobj 5 1) (PyVal.vcls 5)
            [("self", PyVal.vint 3)] ([], [])).2 "cls"
        = glookup [("self", PyVal.vint 3)] "cls") :=
  ⟨rfl,
    C2_globals_restored constFuncA (PyVal.vobj 5 1) (PyVal.vcls 5)
      [("self", PyVal.vint 3)] ([], []) PyVal.vnone rfl⟩

/-- Claim C5: when the body raises under Mechanism A, the restoration
step is skipped and the injected `self` / `cls` bindings remain in the
defining module's globals, for every pre-call state. -/
theorem C5_exception_skips_restore (func : FuncA)
    (selfvar clsvar : PyVal) (g : Globals) (args : Args) (e : PyVal)
    (h : func (injectedGlobals g selfvar clsvar) args
        = Except.error e) :
    decoratedA func selfvar clsvar g args
        = (Except.error e, injectedGlobals g selfvar clsvar)
    ∧ glookup (decoratedA func selfvar clsvar g args).2 "self"
        = some selfvar
    ∧ glookup (decoratedA func selfvar clsvar g args).2 "cls"
        = some clsvar := by
  have h1 : decoratedA func selfvar clsvar g args
      = (Except.error e, injectedGlobals g selfvar clsvar) := by
    simp only [decoratedA, h]
  refine ⟨h1, ?_, ?_⟩
  · rw [h1]
    exact glookup_injected_self g selfvar clsvar
  · rw [h1]
    exact glookup_injected_cls g selfvar clsvar

/-- Witness for C5: a raising body leaves the injected bindings in
place even though neither name was bound before the call. -/
theorem C5_exception_skips_restore_witness :
    raiseFuncA
        (injectedGlobals [("x", PyVal.vint 1)] (PyVal.vobj 5 1)
          (PyVal.vcls 5)) ([], []) = Except.error (PyVal.vstr "boom")
    ∧ (decoratedA raiseFuncA (PyVal.vobj 5 1) (PyVal.vcls 5)
          [("x", PyVal.vint 1)] ([], [])
        = (Except.error (PyVal.vstr "boom"),
            injectedGlobals [("x", PyVal.vint 1)] (PyVal.vobj 5 1)
              (PyVal.vcls 5))
      ∧ glookup
          (decoratedA raiseFuncA (PyVal.vobj 5 1) (PyVal.vcls 5)
            [("x", PyVal.vint 1)] ([], [])).2 "self"
          = some (PyVal.vobj 5 1)
      ∧ glookup
          (decoratedA raiseFuncA (PyVal.vobj 5 1) (PyVal.vcls 5)
            [("x", PyVal.vint 1)] ([], [])).2 "cls"
          = some (PyVal.vcls 5)) :=
  ⟨rfl,
    C5_exception_skips_restore raiseFuncA (PyVal.vobj 5 1)
      (PyVal.vcls 5) [("x", PyVal.vint 1)] ([], [])
      (PyVal.vstr "boom") rfl⟩

/-- Claim C9: under both mechanisms the wrapper passes its positional
and keyword arguments unchanged to the original function and returns
exactly the original function's result. -/
theorem C9_arguments_and_result_passthrough (funcA0 : FuncA)
    (s c : PyVal) (g : Globals) (args : Args) (funcB0 : FuncB)
    (obj cls_ : PyVal) (stack : Stack) (args2 : Args) :
    (decoratedA funcA0 s c g args).1
        = funcA0 (injectedGlobals g s c) args
    ∧ SelfClsDescriptor_get funcB0 obj cls_ stack args2
        = funcB0
            (wrapperFrame obj
              (if obj ≠ PyVal.vnone then pytype obj else cls_) :: stack)
            args2 :=
  ⟨decoratedA_fst funcA0 s c g args, rfl⟩

/-- Claim C3: the frame-stack resolver returns the binding of the name
in the first frame (by stack position, innermost outward) whose locals
contain it, and yields the absence value when no frame on the stack
defines the name (the embedding is total, so no exception can
arise). -/
theorem C3_resolver_first_match (name : String) (stack : Stack) :
    ((∀ f, f ∈ stack → glookup f name = none) →
      resolve_dynamic_var name stack = none)
    ∧ (∀ pre fr post, stack = pre ++ fr :: post →
        (∀ f, f ∈ pre → glookup f name = none) →
        ∀ v, glookup fr name = some v →
        resolve_dynamic_var name stack = some v) := by
  constructor
  · exact resolve_eq_none name stack
  · intro pre fr post hst hpre v hv
    subst hst
    rw [resolve_append name pre (fr :: post) hpre]
    simp [resolve_dynamic_var, hv]

/-- Witness for C3 on a three-frame stack: an undefined name resolves
to the absence value, and a name bound in the second and third frames
resolves to the second frame's value. -/
theorem C3_resolver_first_match_witness :
    resolve_dynamic_var "q"
        [[("a", PyVal.vint 1)], [("x", PyVal.vint 2)],
          [("x", PyVal.vint 3)]] = none
    ∧ resolve_dynamic_var "x"
        [[("a", PyVal.vint 1)], [("x", PyVal.vint 2)],
          [("x", PyVal.vint 3)]] = some (PyVal.vint 2) :=
  ⟨(C3_resolver_first_match "q"
      [[("a", PyVal.vint 1)], [("x", PyVal.vint 2)],
        [("x", PyVal.vint 3)]]).1 (by decide),
    (C3_resolver_first_match "x"
      [[("a", PyVal.vint 1)], [("x", PyVal.vint 2)],
        [("x", PyVal.vint 3)]]).2
      [[("a", PyVal.vint 1)]] [("x", PyVal.vint 2)]
      [[("x", PyVal.vint 3)]] rfl (by decide) (PyVal.vint 2)
      (by decide)⟩

/-- Claim C4: the Mechanism B wrapper calls the original function with
a fresh frame binding locals `self` (the instance, or `None` for
class-level access) and `cls` (the resolved class) pushed onto the
stack, and the resolver functions called from within the wrapped body
(below any body frames that bind neither name) return that instance
and class. -/
theorem C4_wrapper_frame_resolution (func : FuncB) (obj cls_ : PyVal)
    (stack : Stack) (args : Args) :
    SelfClsDescriptor_get func obj cls_ stack args
        = func
            (wrapperFrame obj
              (if obj ≠ PyVal.vnone then pytype obj else cls_) :: stack)
            args
    ∧ (∀ body : Stack,
        (∀ f, f ∈ body →
          glookup f "self" = none ∧ glookup f "cls" = none) →
        self (body ++ wrapperFrame obj
            (if obj ≠ PyVal.vnone then pytype obj else cls_) :: stack)
          = some obj
        ∧ cls (body ++ wrapperFrame obj
            (if obj ≠ PyVal.vnone then pytype obj else cls_) :: stack)
          = some (if obj ≠ PyVal.vnone then pytype obj else cls_)) := by
  refine ⟨rfl, ?_⟩
  intro body hb
  constructor
  · unfold self
    rw [resolve_append _ body _ (fun f hf => (hb f hf).1)]
    rfl
  · unfold cls
    rw [resolve_append _ body _ (fun f hf => (hb f hf).2)]
    rfl

/-- Witness for C4 at an instance of class 5 with one body frame. -/
theorem C4_wrapper_frame_resolution_witness :
    (∀ f, f ∈ [[("y", PyVal.vint 0)]] →
      glookup f "self" = none ∧ glookup f "cls" = none)
    ∧ (SelfClsDescriptor_get constFuncB (PyVal.vobj 5 1) (PyVal.vcls 9)
          [] ([], [])
        = constFuncB
            (wrapperFrame (PyVal.vobj 5 1)
              (pytype (PyVal.vobj 5 1)) :: []) ([], []))
    ∧ self ([[("y", PyVal.vint 0)]] ++ wrapperFrame (PyVal.vobj 5 1)
          (pytype (PyVal.vobj 5 1)) :: [])
        = some (PyVal.vobj 5 1)
    ∧ cls ([[("y", PyVal.vint 0)]] ++ wrapperFrame (PyVal.vobj 5 1)
          (pytype (PyVal.vobj 5 1)) :: [])
        = some (pytype (PyVal.vobj 5 1)) :=
  ⟨by decide,
    (C4_wrapper_frame_resolution constFuncB (PyVal.vobj 5 1)
      (PyVal.vcls 9) [] ([], [])).1,
    ((C4_wrapper_frame_resolution constFuncB (PyVal.vobj 5 1)
      (PyVal.vcls 9) [] ([], [])).2 [[("y", PyVal.vint 0)]]
      (by decide)).1,
    ((C4_wrapper_frame_resolution constFuncB (PyVal.vobj 5 1)
      (PyVal.vcls 9) [] ([], [])).2 [[("y", PyVal.vint 0)]]
      (by decide)).2⟩

/-- Claim C7: with nested Mechanism B calls, the resolvers called from
the inner body return the bindings of the innermost (most recent)
wrapper frame, not those of any outer decorated call further down the
stack. -/
theorem C7_innermost_wrapper_wins (s1 c1 s2 c2 : PyVal)
    (body mid rest : Stack)
    (hb : ∀ f, f ∈ body →
      glookup f "self" = none ∧ glookup f "cls" = none) :
    self (body ++ wrapperFrame s1 c1 ::
        (mid ++ wrapperFrame s2 c2 :: rest)) = some s1
    ∧ cls (body ++ wrapperFrame s1 c1 ::
        (mid ++ wrapperFrame s2 c2 :: rest)) = some c1 := by
  constructor
  · unfold self
    rw [resolve_append _ body _ (fun f hf => (hb f hf).1)]
    rfl
  · unfold cls
    rw [resolve_append _ body _ (fun f hf => (hb f hf).2)]
    rfl

/-- Witness for C7: two distinct nested wrappers, the inner one
wins. -/
theorem C7_innermost_wrapper_wins_witness :
    (∀ f, f ∈ ([] : Stack) →
      glookup f "self" = none ∧ glookup f "cls" = none)
    ∧ self ([] ++ wrapperFrame (PyVal.vobj 5 1) (PyVal.vcls 5) ::
          ([[("z", PyVal.vint 1)]] ++
            wrapperFrame (PyVal.vobj 6 2) (PyVal.vcls 6) :: []))
        = some (PyVal.vobj 5 1)
    ∧ cls ([] ++ wrapperFrame (PyVal.vobj 5 1) (PyVal.vcls 5) ::
          ([[("z", PyVal.vint 1)]] ++
            wrapperFrame (PyVal.vobj 6 2) (PyVal.vcls 6) :: []))
        = some (PyVal.vcls 5) :=
  ⟨by decide,
    (C7_innermost_wrapper_wins (PyVal.vobj 5 1) (PyVal.vcls 5)
      (PyVal.vobj 6 2) (PyVal.vcls 6) [] [[("z", PyVal.vint 1)]] []
      (by decide)).1,
    (C7_innermost_wrapper_wins (PyVal.vobj 5 1) (PyVal.vcls 5)
      (PyVal.vobj 6 2) (PyVal.vcls 6) [] [[("z", PyVal.vint 1)]] []
      (by decide)).2⟩

/-- Claim C8 as stated is false: a stack can contain no decorated
wrapper frame while an ordinary frame (for example a normal method
whose explicit parameter is named `self`) still binds the name, and
then the resolver returns that binding rather than the absence
value. -/
theorem C8_outside_call_counterexample :
    ¬ (∀ stack : Stack,
        (∀ f, f ∈ stack → ¬ IsWrapperFrame f) →
        self stack = none ∧ cls stack = none) := by
  intro h
  have hw : ∀ f, f ∈ [[("self", PyVal.vint 7)]] → ¬ IsWrapperFrame f := by
    intro f hf
    have hf0 : f = [("self", PyVal.vint 7)] := by
      simpa using hf
    subst hf0
    rintro ⟨s, c, hsc⟩
    simp [wrapperFrame] at hsc
  have h0 := (h [[("self", PyVal.vint 7)]] hw).1
  have h1 : self [[("self", PyVal.vint 7)]] = some (PyVal.vint 7) := rfl
  rw [h1] at h0
  exact Option.noConfusion h0

/-- Claim C8 (amended): each resolver function returns the absence
value and never raises, for every call context in which no frame on
the stack binds its own name — `self()` is conditioned only on the
name `self`, `cls()` only on the name `cls`. -/
theorem C8_amended_resolvers_absent (stack : Stack) :
    ((∀ f, f ∈ stack → glookup f "self" = none) → self stack = none)
    ∧ ((∀ f, f ∈ stack → glookup f "cls" = none) → cls stack = none) :=
  ⟨resolve_eq_none "self" stack, resolve_eq_none "cls" stack⟩

/-- Witness for the amended C8: on a stack whose only frame binds just
`cls`, the resolver `self` still yields the absence value, and
symmetrically for `cls` on a stack binding just `self`. -/
theorem C8_amended_resolvers_absent_witness :
    (∀ f, f ∈ [[("cls", PyVal.vcls 5)]] → glookup f "self" = none)
    ∧ self [[("cls", PyVal.vcls 5)]] = none
    ∧ (∀ f, f ∈ [[("self", PyVal.vint 7)]] → glookup f "cls" = none)
    ∧ cls [[("self", PyVal.vint 7)]] = none :=
  ⟨by decide,
    (C8_amended_resolvers_absent [[("cls", PyVal.vcls 5)]]).1
      (by decide),
    by decide,
    (C8_amended_resolvers_absent [[("self", PyVal.vint 7)]]).2
      (by decide)⟩

/-- Claim C6: both metaclasses rewrite the new class's own namespace
dictionary pointwise at class creation: every callable value is
replaced by an instance of the corresponding wrapping descriptor and
every non-callable value passes through unchanged. -/
theorem C6_metaclass_wraps_callables (name : String)
    (bases : List NsDict) (d : NsDict) (k : String) (v : Attr)
    (h : nslookup d k = some v) :
    nslookup (ImplicitSelfMetaclass_new name bases d).ns k
        = some (if isCallable v then Attr.wrappedA v else v)
    ∧ nslookup (SelfClsMetaclass_new name bases d).ns k
        = some (if isCallable v then Attr.wrappedB v else v) := by
  constructor
  · have e1 : nslookup (ImplicitSelfMetaclass_new name bases d).ns k
        = (nslookup d k).map
            (fun v => if isCallable v then Attr.wrappedA v else v) :=
      nslookup_wrapMap Attr.wrappedA d k
    rw [e1, h]
    rfl
  · have e2 : nslookup (SelfClsMetaclass_new name bases d).ns k
        = (nslookup d k).map
            (fun v => if isCallable v then Attr.wrappedB v else v) :=
      nslookup_wrapMap Attr.wrappedB d k
    rw [e2, h]
    rfl

/-- Witness for C6 on a namespace with one callable and one plain
value: the callable is wrapped by each metaclass, the plain value
passes through both. -/
theorem C6_metaclass_wraps_callables_witness :
    (nslookup [("m", Attr.method 0), ("doc", Attr.plain (PyVal.vstr "d"))]
        "m" = some (Attr.method 0)
      ∧ nslookup (ImplicitSelfMetaclass_new "A" []
          [("m", Attr.method 0),
            ("doc", Attr.plain (PyVal.vstr "d"))]).ns "m"
        = some (Attr.wrappedA (Attr.method 0))
      ∧ nslookup (SelfClsMetaclass_new "A" []
          [("m", Attr.method 0),
            ("doc", Attr.plain (PyVal.vstr "d"))]).ns "m"
        = some (Attr.wrappedB (Attr.method 0)))
    ∧ (nslookup [("m", Attr.method 0), ("doc", Attr.plain (PyVal.vstr "d"))]
        "doc" = some (Attr.plain (PyVal.vstr "d"))
      ∧ nslookup (ImplicitSelfMetaclass_new "A" []
          [("m", Attr.method 0),
            ("doc", Attr.plain (PyVal.vstr "d"))]).ns "doc"
        = some (Attr.plain (PyVal.vstr "d"))
      ∧ nslookup (SelfClsMetaclass_new "A" []
          [("m", Attr.method 0),
            ("doc", Attr.plain (PyVal.vstr "d"))]).ns "doc"
        = some (Attr.plain (PyVal.vstr "d"))) :=
  ⟨⟨rfl,
    (C6_metaclass_wraps_callables "A" []
      [("m", Attr.method 0), ("doc", Attr.plain (PyVal.vstr "d"))] "m"
      (Attr.method 0) rfl).1,
    (C6_metaclass_wraps_callables "A" []
      [("m", Attr.method 0), ("doc", Attr.plain (PyVal.vstr "d"))] "m"
      (Attr.method 0) rfl).2⟩,
   ⟨rfl,
    (C6_metaclass_wraps_callables "A" []
      [("m", Attr.method 0), ("doc", Attr.plain (PyVal.vstr "d"))] "doc"
      (Attr.plain (PyVal.vstr "d")) rfl).1,
    (C6_metaclass_wraps_callables "A" []
      [("m", Attr.method 0), ("doc", Attr.plain (PyVal.vstr "d"))] "doc"
      (Attr.plain (PyVal.vstr "d")) rfl).2⟩⟩

/-- Claim C10: only the new class's own namespace is rewritten; a
callable inherited from a base class and not redefined in the subclass
is found unwrapped by attribute lookup on the new class, under both
metaclasses. -/
theorem C10_inherited_callables_untouched (name : String)
    (bases : List NsDict) (d : NsDict) (k : String) (fid : Nat)
    (h1 : nslookup d k = none)
    (h2 : basesLookup bases k = some (Attr.method fid)) :
    class_getattr (ImplicitSelfMetaclass_new name bases d) k
        = some (Attr.method fid)
    ∧ class_getattr (SelfClsMetaclass_new name bases d) k
        = some (Attr.method fid) := by
  constructor
  · have e1 : nslookup (ImplicitSelfMetaclass_new name bases d).ns k
        = none := by
      have e := nslookup_wrapMap Attr.wrappedA d k
      rw [h1] at e
      simpa using e
    unfold class_getattr
    rw [e1]
    exact h2
  · have e2 : nslookup (SelfClsMetaclass_new name bases d).ns k
        = none := by
      have e := nslookup_wrapMap Attr.wrappedB d k
      rw [h1] at e
      simpa using e
    unfold class_getattr
    rw [e2]
    exact h2

/-- Witness for C10: the subclass defines only `m`; the inherited
callable `g` of the base stays an unwrapped method in lookups on the
new class under both metaclasses. -/
theorem C10_inherited_callables_untouched_witness :
    nslookup [("m", Attr.method 0)] "g" = none
    ∧ basesLookup [[("g", Attr.method 7)]] "g" = some (Attr.method 7)
    ∧ class_getattr
        (ImplicitSelfMetaclass_new "C" [[("g", Attr.method 7)]]
          [("m", Attr.method 0)]) "g" = some (Attr.method 7)
    ∧ class_getattr
        (SelfClsMetaclass_new "C" [[("g", Attr.method 7)]]
          [("m", Attr.method 0)]) "g" = some (Attr.method 7) :=
  ⟨rfl, rfl,
    (C10_inherited_callables_untouched "C" [[("g", Attr.method 7)]]
      [("m", Attr.method 0)] "g" 7 rfl rfl).1,
    (C10_inherited_callables_untouched "C" [[("g", Attr.method 7)]]
      [("m", Attr.method 0)] "g" 7 rfl rfl).2⟩
